import Mathlib

/-!
Verification of the x-pack security plugin entry point
(`x-pack/plugins/security/index.js`): the RBAC mode gating of the
`onPostAuth` interceptor, the saved-objects client factory and wrapper
factory, `replaceInjectedVars`, and the configuration schema.

JavaScript string primitives used by the source (`String.prototype.split`
with a single-character separator and a limit, and
`String.prototype.startsWith`) are embedded as executable functions over
the character list of a `String`.
-/

namespace KibanaSecurity

/-- Splits a character list at every occurrence of `sep`, JS-style: the
separators are dropped and empty segments are kept (so a leading or a
trailing separator yields an empty segment). -/
def splitAux (sep : Char) : List Char → List Char → List (List Char)
  | [], acc => [acc.reverse]
  | c :: cs, acc =>
    if c = sep then acc.reverse :: splitAux sep cs []
    else splitAux sep cs (c :: acc)

/-- JS `s.split(sep)` for a single-character separator `sep`. -/
def jsSplit (s : String) (sep : Char) : List String :=
  (splitAux sep s.data []).map String.mk

/-- JS `s.split(sep, limit)`: the full split truncated to its first
`limit` elements. -/
def jsSplitLimit (s : String) (sep : Char) (limit : Nat) : List String :=
  (jsSplit s sep).take limit

/-- JS `s.startsWith(p)`. -/
def jsStartsWith (s p : String) : Bool :=
  p.data.isPrefixOf s.data

/-! ## Request data model

`req.route.settings` carries the route's `tags` (defaulting to `[]` in the
source via destructuring) and its `auth` setting.  The source compares the
auth setting with `=== false`, a strict equality that only the boolean
literal `false` satisfies, so the auth setting is embedded as a sum of the
JS values it can take. -/

/-- The route's `auth` configuration value as seen by `=== false`. -/
inductive AuthSetting : Type
  | bool (b : Bool)
  | missing
  | strategy (s : String)
deriving DecidableEq

/-- JS `x === false` on the route auth setting. -/
def jsStrictEqFalse : AuthSetting → Bool
  | AuthSetting.bool false => true
  | _ => false

/-- The `req.route.settings` object. -/
structure RouteSettings where
  tags : List String
  auth : AuthSetting
deriving DecidableEq

/-- The `req.route` object. -/
structure Route where
  settings : RouteSettings
deriving DecidableEq

/-- An inbound request: its path and its route metadata. -/
structure Request where
  path : String
  route : Route
deriving DecidableEq

/-- Result of a `checkPrivileges` call; only `hasAllRequested` is consulted
by the interceptor. -/
structure CheckPrivilegesResponse where
  hasAllRequested : Bool
deriving DecidableEq

/-- The interceptor's terminal outcome: `h.continue` or `Boom.notFound()`.
Both denial branches of the source produce the same `Boom.notFound()`
value, so a single constructor models every not-found response. -/
inductive Response : Type
  | kContinue
  | notFound
deriving DecidableEq

/-- Observable effects of one `onPostAuth` run: the single `mode.useRbac()`
read, the `checkPrivilegesDynamicallyWithRequest(req)` invocation, and
each privilege check with the exact action list passed to it. -/
inductive Event : Type
  | modeRead (rbac : Bool)
  | checkerCreated
  | checkCall (actions : List String)
deriving DecidableEq

/-- `path.split('/', 3)[2]` — the source's `appId` (and `feature`)
computation. -/
def thirdSlashSegment (path : String) : String :=
  (jsSplitLimit path '/' 3).getD 2 ""

/-- `tag.split(':', 2)[1]` — the source's operation extraction from an
access tag. -/
def accessTagOperation (tag : String) : String :=
  (jsSplitLimit tag ':' 2).getD 1 ""

/-- `tags.filter(tag => tag.startsWith('access:'))`. -/
def accessTags (req : Request) : List String :=
  req.route.settings.tags.filter (fun tag => jsStartsWith tag "access:")

/-- `actionTags.map(tag => actions.api.get(feature + '/' + tag.split(':', 2)[1]))`,
with the action registry `actions.api.get` kept abstract as `apiGet`. -/
def apiActionsOf (apiGet : String → String) (req : Request) : List String :=
  (accessTags req).map
    (fun tag => apiGet (thirdSlashSegment req.path ++ "/" ++ accessTagOperation tag))

/-- The api action list exactly as the claim words it: the operation is
the whole tag text after the seven characters of the access marker, not
the source's `tag.split(':', 2)[1]`.  Kept separate for comparison with
`apiActionsOf`. -/
def specApiActionsOf (apiGet : String → String) (req : Request) : List String :=
  (accessTags req).map
    (fun tag => apiGet (thirdSlashSegment req.path ++ "/" ++ String.mk (tag.data.drop 7)))

/-- The `/api/` block of the interceptor (source lines 247–261): when the
path starts with `/api/` and the route carries access tags, one privilege
check over all derived api actions decides between continue and not-found;
otherwise the block is a no-op. -/
def apiPhase (apiGet : String → String)
    (checkPrivileges : List String → CheckPrivilegesResponse)
    (req : Request) : Response × List Event :=
  if jsStartsWith req.path "/api/" then
    if (accessTags req).length > 0 then
      if !(checkPrivileges (apiActionsOf apiGet req)).hasAllRequested then
        (Response.notFound, [Event.checkCall (apiActionsOf apiGet req)])
      else
        (Response.kContinue, [Event.checkCall (apiActionsOf apiGet req)])
    else (Response.kContinue, [])
  else (Response.kContinue, [])

/-- The `onPostAuth` interceptor (source lines 223–264).  `useRbac` is the
value returned by the single `mode.useRbac()` call; `appGet` and `apiGet`
are the abstract action registry (`actions.app.get`, `actions.api.get`);
`checkPrivileges` is the checker produced by
`checkPrivilegesDynamicallyWithRequest(req)` (the source passes a single
action in the app branch, embedded as a one-element list).  The returned
event list records the run's observable effects in order. -/
def onPostAuth (useRbac : Bool) (appGet apiGet : String → String)
    (checkPrivileges : List String → CheckPrivilegesResponse)
    (req : Request) : Response × List Event :=
  if !useRbac then
    (Response.kContinue, [Event.modeRead useRbac])
  else if jsStartsWith req.path "/app/" then
    if !(checkPrivileges [appGet (thirdSlashSegment req.path)]).hasAllRequested then
      (Response.notFound,
        [Event.modeRead useRbac, Event.checkerCreated,
          Event.checkCall [appGet (thirdSlashSegment req.path)]])
    else
      ((apiPhase apiGet checkPrivileges req).1,
        [Event.modeRead useRbac, Event.checkerCreated,
          Event.checkCall [appGet (thirdSlashSegment req.path)]] ++
          (apiPhase apiGet checkPrivileges req).2)
  else
    ((apiPhase apiGet checkPrivileges req).1,
      [Event.modeRead useRbac, Event.checkerCreated] ++
        (apiPhase apiGet checkPrivileges req).2)

/-- Projects the privilege-check calls (with their action lists) out of an
event trace. -/
def checkCallsOf (evs : List Event) : List (List String) :=
  evs.filterMap (fun e =>
    match e with
    | Event.checkCall a => some a
    | _ => none)

/-- Recognizes the mode-read event. -/
def isModeRead : Event → Bool
  | Event.modeRead _ => true
  | _ => false

/-! ## Saved-objects client factory and wrapper factory -/

/-- Which cluster-call credential a saved-objects repository is built
over: `callWithInternalUser` (the internal, elevated identity) or the
`callCluster` closure over `callWithRequest` (the caller's identity). -/
inductive Repository : Type
  | internalUser
  | callWithRequest
deriving DecidableEq

/-- A `savedObjects.SavedObjectsClient` together with the repository it
was constructed over. -/
structure SavedObjectsClient where
  repository : Repository
deriving DecidableEq

/-- The factory body passed to `setScopedSavedObjectsClientFactory`
(source lines 164–178).  The second component lists the repositories
constructed during the call, in order. -/
def scopedSavedObjectsClientFactory (useRbac : Bool) :
    SavedObjectsClient × List Repository :=
  if useRbac then
    ({ repository := Repository.internalUser }, [Repository.internalUser])
  else
    ({ repository := Repository.callWithRequest }, [Repository.callWithRequest])

/-- Result of the wrapper factory: either a constructed
`SecureSavedObjectsClientWrapper` holding the base client, or the base
client returned as-is. -/
inductive WrapperFactoryResult (C : Type) : Type
  | secureWrapper (baseClient : C)
  | plainClient (c : C)
deriving DecidableEq

/-- The factory body passed to `addScopedSavedObjectsClientWrapperFactory`
(source lines 180–194). -/
def scopedSavedObjectsClientWrapperFactory {C : Type} (useRbac : Bool)
    (client : C) : WrapperFactoryResult C :=
  if useRbac then WrapperFactoryResult.secureWrapper client
  else WrapperFactoryResult.plainClient client

/-! ## replaceInjectedVars and the capability disabler -/

/-- A UI capability map: feature id to capability id to enabled flag. -/
abbrev UICapabilities := List (String × List (String × Bool))

/-- Modelled from the spec: `disableUICapabilitesFactory(server, request).all`
(the module `server/lib/authorization` is outside the shown excerpt).  The
spec's Capability Disabler "disable all" path "returns a map with every
capability flag `false`", never mutating the input and preserving its
shape. -/
def disableUICapabilitesAll (m : UICapabilities) : UICapabilities :=
  m.map (fun feature => (feature.1, feature.2.map (fun cap => (cap.1, false))))

/-- Decides whether every capability flag in the map is `false`. -/
def allFlagsFalse (m : UICapabilities) : Bool :=
  m.all (fun feature => feature.2.all (fun cap => cap.2 == false))

/-- The injected-vars object: its `uiCapabilities` field plus all of its
other fields, kept abstract as one value of type `V` (the object spread
`{...originalInjectedVars, uiCapabilities: …}` copies them unchanged). -/
structure InjectedVars (V : Type) where
  otherVars : V
  uiCapabilities : UICapabilities
deriving DecidableEq

/-- Observable effect of `disableUICapabilites.usingPrivileges`: per the
spec it resolves the principal's privileges via the Checker. -/
inductive UiEvent : Type
  | privilegesResolved
deriving DecidableEq

/-- The `replaceInjectedVars` uiExport (source lines 100–121).  `useRbac`
is `authorization.mode.useRbac()`; `usingPrivileges` is the abstract
`disableUICapabilites.usingPrivileges`.  The event list records whether
the Checker-consulting path ran. -/
def replaceInjectedVars {V : Type} (useRbac : Bool)
    (usingPrivileges : UICapabilities → UICapabilities)
    (originalInjectedVars : InjectedVars V) (request : Request) :
    InjectedVars V × List UiEvent :=
  if !useRbac then
    (originalInjectedVars, [])
  else if jsStrictEqFalse request.route.settings.auth then
    ({ originalInjectedVars with
        uiCapabilities := disableUICapabilitesAll originalInjectedVars.uiCapabilities },
      [])
  else
    ({ originalInjectedVars with
        uiCapabilities := usingPrivileges originalInjectedVars.uiCapabilities },
      [UiEvent.privilegesResolved])

/-! ## Configuration schema defaults and deprecations -/

/-- `authorization.legacyFallback` in the Joi schema (source lines 49–53). -/
structure LegacyFallbackConfig where
  enabled : Bool
deriving DecidableEq

/-- `authorization` in the Joi schema. -/
structure AuthorizationConfig where
  legacyFallback : LegacyFallbackConfig
deriving DecidableEq

/-- `audit` in the Joi schema (source lines 54–56). -/
structure AuditConfig where
  enabled : Bool
deriving DecidableEq

/-- The scalar and nested defaults of the `xpack.security` Joi schema
(source lines 36–58). -/
structure SecurityConfig where
  authProviders : List String
  enabled : Bool
  cookieName : String
  sessionTimeout : Option Int
  secureCookies : Bool
  authorization : AuthorizationConfig
  audit : AuditConfig
deriving DecidableEq

/-- The schema's default values: each field's Joi `.default(...)`. -/
def securityConfigDefaults : SecurityConfig where
  authProviders := ["basic"]
  enabled := true
  cookieName := "sid"
  sessionTimeout := none
  secureCookies := false
  authorization := { legacyFallback := { enabled := true } }
  audit := { enabled := false }

/-- The `deprecations` hook (source lines 60–64): the settings registered
as unused/deprecated. -/
def deprecatedSettings : List String :=
  ["authorization.legacyFallback.enabled"]

/-- Modelled from the spec: the RBAC mode resolver's tie-break (module
`server/lib/authorization` is outside the shown excerpt).  Per the spec's
design notes, the resolver still reads `authorization.legacyFallback.enabled`
and tie-breaks it against actual RBAC allowance: RBAC applies when the
license allows it and the legacy fallback does not claim the request. -/
def useRbacTieBreak (allowRbac legacyFallbackEnabled principalHasLegacyPrivileges : Bool) : Bool :=
  allowRbac && !(legacyFallbackEnabled && principalHasLegacyPrivileges)

/-! ## Helper lemmas -/

/-- Two list-prefixes of the same list that have the same length are
equal. -/
theorem eq_of_isPrefixOf_of_length {p q l : List Char}
    (hp : p.isPrefixOf l = true) (hq : q.isPrefixOf l = true)
    (hlen : p.length = q.length) : p = q := by
  induction l generalizing p q with
  | nil =>
    cases p with
    | cons a ps => simp [List.isPrefixOf] at hp
    | nil =>
      cases q with
      | nil => rfl
      | cons b qs => simp [List.isPrefixOf] at hq
  | cons c ls ih =>
    cases p with
    | nil =>
      cases q with
      | nil => rfl
      | cons b qs => simp at hlen
    | cons a ps =>
      cases q with
      | nil => simp at hlen
      | cons b qs =>
        simp only [List.isPrefixOf, Bool.and_eq_true, beq_iff_eq] at hp hq
        obtain ⟨hac, hps⟩ := hp
        obtain ⟨hbc, hqs⟩ := hq
        simp only [List.length_cons] at hlen
        subst hac
        subst hbc
        rw [ih hps hqs (by omega)]

/-- A list cannot start with two distinct equal-length character lists. -/
theorem isPrefixOf_false_of_ne (p q l : List Char)
    (h : p.isPrefixOf l = true) (hlen : p.length = q.length) (hne : p ≠ q) :
    q.isPrefixOf l = false := by
  cases hq : q.isPrefixOf l with
  | false => rfl
  | true => exact absurd (eq_of_isPrefixOf_of_length h hq hlen) hne

/-- A path starting with `/app/` does not start with `/api/`. -/
theorem jsStartsWith_api_eq_false_of_app {s : String}
    (h : jsStartsWith s "/app/" = true) : jsStartsWith s "/api/" = false :=
  isPrefixOf_false_of_ne "/app/".data "/api/".data s.data h (by decide) (by decide)

/-- A path starting with `/api/` does not start with `/app/`. -/
theorem jsStartsWith_app_eq_false_of_api {s : String}
    (h : jsStartsWith s "/api/" = true) : jsStartsWith s "/app/" = false :=
  isPrefixOf_false_of_ne "/api/".data "/app/".data s.data h (by decide) (by decide)

/-- The `/api/` block never reads the mode. -/
theorem apiPhase_countP_isModeRead (apiGet : String → String)
    (checkPrivileges : List String → CheckPrivilegesResponse) (req : Request) :
    ((apiPhase apiGet checkPrivileges req).2).countP isModeRead = 0 := by
  unfold apiPhase
  split
  · split
    · split <;> simp [isModeRead]
    · simp
  · simp

/-! ## Claim theorems -/

/-- C1: when `mode.useRbac()` returns `false`, the `onPostAuth`
interceptor returns continue with a trace containing only the mode read —
so `checkPrivilegesDynamicallyWithRequest` is never invoked and no
privilege check runs, for any path and tags — and the scoped
saved-objects client wrapper factory returns the base client unwrapped,
constructing no `SecureSavedObjectsClientWrapper`. -/
theorem C1_legacy_mode_bypasses_all_checks {C : Type}
    (appGet apiGet : String → String)
    (checkPrivileges : List String → CheckPrivilegesResponse)
    (req : Request) (client : C) :
    onPostAuth false appGet apiGet checkPrivileges req
        = (Response.kContinue, [Event.modeRead false]) ∧
    scopedSavedObjectsClientWrapperFactory false client
        = WrapperFactoryResult.plainClient client := by
  constructor
  · simp [onPostAuth]
  · simp [scopedSavedObjectsClientWrapperFactory]

/-- C8: for every request and either mode value, the `onPostAuth` trace
begins with the single mode read, and that read is the only one in the
whole run — in particular every privilege check happens after it, and the
entire decision is a function of that one observed mode value. -/
theorem C8_mode_read_once_and_first (useRbac : Bool)
    (appGet apiGet : String → String)
    (checkPrivileges : List String → CheckPrivilegesResponse)
    (req : Request) :
    ((onPostAuth useRbac appGet apiGet checkPrivileges req).2).head?
        = some (Event.modeRead useRbac) ∧
    ((onPostAuth useRbac appGet apiGet checkPrivileges req).2).countP isModeRead
        = 1 := by
  have hapi := apiPhase_countP_isModeRead apiGet checkPrivileges req
  unfold onPostAuth
  split
  · simp [isModeRead]
  · split
    · split
      · simp [isModeRead]
      · simp [isModeRead, List.countP_append, List.countP_cons, hapi]
    · simp [isModeRead, List.countP_append, List.countP_cons, hapi]

/-- C9: the scoped saved-objects client factory selects credentials by
mode — with RBAC the client is built over the internal-user repository,
without it over the caller-identity repository — and exactly one
repository is constructed per call. -/
theorem C9_repository_selected_by_mode (useRbac : Bool) :
    (scopedSavedObjectsClientFactory useRbac).1.repository
        = (if useRbac then Repository.internalUser else Repository.callWithRequest) ∧
    (scopedSavedObjectsClientFactory useRbac).2
        = [if useRbac then Repository.internalUser else Repository.callWithRequest] := by
  cases useRbac <;> simp [scopedSavedObjectsClientFactory]

/-- An RBAC-mode run on an `/app/` path performs exactly one privilege
check, with the singleton derived app action, and answers by
`hasAllRequested` alone. -/
theorem onPostAuth_app_enforcement (appGet apiGet : String → String)
    (checkPrivileges : List String → CheckPrivilegesResponse) (req : Request)
    (h : jsStartsWith req.path "/app/" = true) :
    checkCallsOf (onPostAuth true appGet apiGet checkPrivileges req).2
        = [[appGet (thirdSlashSegment req.path)]] ∧
    (onPostAuth true appGet apiGet checkPrivileges req).1
        = (if (checkPrivileges [appGet (thirdSlashSegment req.path)]).hasAllRequested
            then Response.kContinue else Response.notFound) := by
  have hapi : jsStartsWith req.path "/api/" = false :=
    jsStartsWith_api_eq_false_of_app h
  cases hall : (checkPrivileges [appGet (thirdSlashSegment req.path)]).hasAllRequested <;>
    simp [onPostAuth, apiPhase, h, hall, hapi, checkCallsOf]

/-- C3: in RBAC mode, a request whose path starts with `/app/` triggers
exactly one privilege check, whose action list is exactly the singleton
`actions.app.get(appId)` with `appId = path.split('/', 3)[2]`, and the
interceptor answers not-found exactly when `hasAllRequested` is false,
otherwise continue. -/
theorem C3_app_path_single_check (appGet apiGet : String → String)
    (checkPrivileges : List String → CheckPrivilegesResponse) (req : Request)
    (h : jsStartsWith req.path "/app/" = true) :
    checkCallsOf (onPostAuth true appGet apiGet checkPrivileges req).2
        = [[appGet (thirdSlashSegment req.path)]] ∧
    (onPostAuth true appGet apiGet checkPrivileges req).1
        = (if (checkPrivileges [appGet (thirdSlashSegment req.path)]).hasAllRequested
            then Response.kContinue else Response.notFound) :=
  onPostAuth_app_enforcement appGet apiGet checkPrivileges req h

/-- C3 witness: a concrete RBAC-mode request to `/app/foo/bar` with a
denying checker satisfies the hypothesis and the conclusion. -/
theorem C3_app_path_single_check_witness :
    jsStartsWith "/app/foo/bar" "/app/" = true ∧
    (checkCallsOf (onPostAuth true (fun s => "app:" ++ s) (fun s => "api:" ++ s)
          (fun _ => ⟨false⟩) ⟨"/app/foo/bar", ⟨⟨[], AuthSetting.missing⟩⟩⟩).2
        = [[("app:" ++ thirdSlashSegment "/app/foo/bar" : String)]] ∧
      (onPostAuth true (fun s => "app:" ++ s) (fun s => "api:" ++ s)
          (fun _ => ⟨false⟩) ⟨"/app/foo/bar", ⟨⟨[], AuthSetting.missing⟩⟩⟩).1
        = (if (CheckPrivilegesResponse.mk false).hasAllRequested
            then Response.kContinue else Response.notFound)) :=
  ⟨by decide,
    C3_app_path_single_check (fun s => "app:" ++ s) (fun s => "api:" ++ s)
      (fun _ => ⟨false⟩) ⟨"/app/foo/bar", ⟨⟨[], AuthSetting.missing⟩⟩⟩ (by decide)⟩

/-- C2: in RBAC mode, a request to an `/app/` path whose derived app
action the checker reports unsatisfied and a request to a nonexistent app
path (also an `/app/` path, whose derived action no privilege satisfies)
produce identical interceptor responses — both the same not-found value —
so denial is indistinguishable from nonexistence. -/
theorem C2_denied_indistinguishable_from_nonexistent
    (appGet apiGet : String → String)
    (cp1 cp2 : List String → CheckPrivilegesResponse) (req1 req2 : Request)
    (h1 : jsStartsWith req1.path "/app/" = true)
    (h2 : jsStartsWith req2.path "/app/" = true)
    (hc1 : (cp1 [appGet (thirdSlashSegment req1.path)]).hasAllRequested = false)
    (hc2 : (cp2 [appGet (thirdSlashSegment req2.path)]).hasAllRequested = false) :
    (onPostAuth true appGet apiGet cp1 req1).1
        = (onPostAuth true appGet apiGet cp2 req2).1 ∧
    (onPostAuth true appGet apiGet cp1 req1).1 = Response.notFound := by
  have e1 := (onPostAuth_app_enforcement appGet apiGet cp1 req1 h1).2
  have e2 := (onPostAuth_app_enforcement appGet apiGet cp2 req2 h2).2
  rw [hc1] at e1
  rw [hc2] at e2
  simp only [if_neg Bool.false_ne_true] at e1 e2
  exact ⟨e1.trans e2.symm, e1⟩

/-- C2 witness: a concrete denied existing app (`/app/dashboard`) and a
concrete nonexistent app (`/app/no_such_app`) under the same principal
whose checker grants nothing. -/
theorem C2_denied_indistinguishable_from_nonexistent_witness :
    (onPostAuth true (fun s => "app:" ++ s) (fun s => "api:" ++ s)
        (fun _ => ⟨false⟩) ⟨"/app/dashboard", ⟨⟨[], AuthSetting.missing⟩⟩⟩).1
      = (onPostAuth true (fun s => "app:" ++ s) (fun s => "api:" ++ s)
        (fun _ => ⟨false⟩) ⟨"/app/no_such_app", ⟨⟨[], AuthSetting.missing⟩⟩⟩).1 ∧
    (onPostAuth true (fun s => "app:" ++ s) (fun s => "api:" ++ s)
        (fun _ => ⟨false⟩) ⟨"/app/dashboard", ⟨⟨[], AuthSetting.missing⟩⟩⟩).1
      = Response.notFound :=
  C2_denied_indistinguishable_from_nonexistent (fun s => "app:" ++ s)
    (fun s => "api:" ++ s) (fun _ => ⟨false⟩) (fun _ => ⟨false⟩)
    ⟨"/app/dashboard", ⟨⟨[], AuthSetting.missing⟩⟩⟩
    ⟨"/app/no_such_app", ⟨⟨[], AuthSetting.missing⟩⟩⟩
    (by decide) (by decide) (by decide) (by decide)

/-- An RBAC-mode run on an `/api/` path: with at least one access tag,
exactly one privilege check over the derived api actions decides the
response; with no access tag, no check runs and the response is
continue. -/
theorem onPostAuth_api_enforcement (appGet apiGet : String → String)
    (checkPrivileges : List String → CheckPrivilegesResponse) (req : Request)
    (h : jsStartsWith req.path "/api/" = true) :
    (accessTags req ≠ [] →
      checkCallsOf (onPostAuth true appGet apiGet checkPrivileges req).2
          = [apiActionsOf apiGet req] ∧
      (onPostAuth true appGet apiGet checkPrivileges req).1
          = (if (checkPrivileges (apiActionsOf apiGet req)).hasAllRequested
              then Response.kContinue else Response.notFound)) ∧
    (accessTags req = [] →
      checkCallsOf (onPostAuth true appGet apiGet checkPrivileges req).2 = [] ∧
      (onPostAuth true appGet apiGet checkPrivileges req).1 = Response.kContinue) := by
  have happ : jsStartsWith req.path "/app/" = false :=
    jsStartsWith_app_eq_false_of_api h
  cases htags : accessTags req with
  | nil =>
    refine ⟨fun hne => absurd rfl hne, fun _ => ?_⟩
    simp [onPostAuth, apiPhase, h, happ, htags, checkCallsOf]
  | cons t ts =>
    refine ⟨fun _ => ?_, fun hnil => absurd hnil (List.cons_ne_nil t ts)⟩
    cases hall : (checkPrivileges (apiActionsOf apiGet req)).hasAllRequested <;>
      simp [onPostAuth, apiPhase, h, happ, htags, hall, checkCallsOf]

/-- C4 counterexample: the claim reads the operation as the entire tag
text after the access marker, but on the tag with a second colon the
source truncates at it.  With `path = /api/foo/thing`, one access tag
carrying operation text `a:b`, and `actions.api.get` prefixing `api:`,
the run's single check carries `api:foo/a` while the claim's action set
is `api:foo/a:b`, so the checker is not called with the claimed set. -/
theorem C4_operation_text_counterexample :
    checkCallsOf (onPostAuth true (fun s => "app:" ++ s) (fun s => "api:" ++ s)
          (fun _ => ⟨true⟩)
          ⟨"/api/foo/thing", ⟨⟨["access:a:b"], AuthSetting.missing⟩⟩⟩).2
        = [["api:foo/a"]] ∧
    specApiActionsOf (fun s => "api:" ++ s)
          ⟨"/api/foo/thing", ⟨⟨["access:a:b"], AuthSetting.missing⟩⟩⟩
        = ["api:foo/a:b"] ∧
    checkCallsOf (onPostAuth true (fun s => "app:" ++ s) (fun s => "api:" ++ s)
          (fun _ => ⟨true⟩)
          ⟨"/api/foo/thing", ⟨⟨["access:a:b"], AuthSetting.missing⟩⟩⟩).2
        ≠ [specApiActionsOf (fun s => "api:" ++ s)
            ⟨"/api/foo/thing", ⟨⟨["access:a:b"], AuthSetting.missing⟩⟩⟩] := by
  decide

/-- C4 (amended): in RBAC mode, for every request whose path starts with
`/api/`: if the route carries access tags, the interceptor calls the
checker once with exactly the actions `actions.api.get(<feature>/<operation>)`
for each tag, where `<feature>` is `path.split('/', 3)[2]` and
`<operation>` is `tag.split(':', 2)[1]` — the tag text between the first
and second colon — and denies exactly when `hasAllRequested` is false; if
the route carries zero access tags, it continues without any checker
call. -/
theorem C4_api_path_enforcement (appGet apiGet : String → String)
    (checkPrivileges : List String → CheckPrivilegesResponse) (req : Request)
    (h : jsStartsWith req.path "/api/" = true) :
    (accessTags req ≠ [] →
      checkCallsOf (onPostAuth true appGet apiGet checkPrivileges req).2
          = [apiActionsOf apiGet req] ∧
      (onPostAuth true appGet apiGet checkPrivileges req).1
          = (if (checkPrivileges (apiActionsOf apiGet req)).hasAllRequested
              then Response.kContinue else Response.notFound)) ∧
    (accessTags req = [] →
      checkCallsOf (onPostAuth true appGet apiGet checkPrivileges req).2 = [] ∧
      (onPostAuth true appGet apiGet checkPrivileges req).1 = Response.kContinue) :=
  onPostAuth_api_enforcement appGet apiGet checkPrivileges req h

/-- C4 witness: a concrete RBAC-mode request to `/api/foo/thing` whose
route carries one access tag, under a denying checker. -/
theorem C4_api_path_enforcement_witness :
    jsStartsWith "/api/foo/thing" "/api/" = true ∧
    ((accessTags ⟨"/api/foo/thing", ⟨⟨["access:read", "other"], AuthSetting.missing⟩⟩⟩ ≠ [] →
      checkCallsOf (onPostAuth true (fun s => "app:" ++ s) (fun s => "api:" ++ s)
            (fun _ => ⟨false⟩)
            ⟨"/api/foo/thing", ⟨⟨["access:read", "other"], AuthSetting.missing⟩⟩⟩).2
          = [apiActionsOf (fun s => "api:" ++ s)
              ⟨"/api/foo/thing", ⟨⟨["access:read", "other"], AuthSetting.missing⟩⟩⟩] ∧
      (onPostAuth true (fun s => "app:" ++ s) (fun s => "api:" ++ s)
            (fun _ => ⟨false⟩)
            ⟨"/api/foo/thing", ⟨⟨["access:read", "other"], AuthSetting.missing⟩⟩⟩).1
          = (if (CheckPrivilegesResponse.mk false).hasAllRequested
              then Response.kContinue else Response.notFound)) ∧
    (accessTags ⟨"/api/foo/thing", ⟨⟨["access:read", "other"], AuthSetting.missing⟩⟩⟩ = [] →
      checkCallsOf (onPostAuth true (fun s => "app:" ++ s) (fun s => "api:" ++ s)
            (fun _ => ⟨false⟩)
            ⟨"/api/foo/thing", ⟨⟨["access:read", "other"], AuthSetting.missing⟩⟩⟩).2 = [] ∧
      (onPostAuth true (fun s => "app:" ++ s) (fun s => "api:" ++ s)
            (fun _ => ⟨false⟩)
            ⟨"/api/foo/thing", ⟨⟨["access:read", "other"], AuthSetting.missing⟩⟩⟩).1
          = Response.kContinue)) :=
  ⟨by decide,
    C4_api_path_enforcement (fun s => "app:" ++ s) (fun s => "api:" ++ s)
      (fun _ => ⟨false⟩)
      ⟨"/api/foo/thing", ⟨⟨["access:read", "other"], AuthSetting.missing⟩⟩⟩ (by decide)⟩

/-- The "disable all" path turns every capability flag off. -/
theorem allFlagsFalse_disableUICapabilitesAll (m : UICapabilities) :
    allFlagsFalse (disableUICapabilitesAll m) = true := by
  simp [allFlagsFalse, disableUICapabilitesAll, List.all_map, Function.comp,
    List.all_eq_true]

/-- C5: `replaceInjectedVars` never alters its input value: with RBAC off
it returns the original injected vars unchanged, and with RBAC on the
result keeps every field other than `uiCapabilities` identical to the
input's and replaces `uiCapabilities` with the capability disabler's
output ("disable all" on anonymous routes, the privilege-resolving path
otherwise). -/
theorem C5_replaceInjectedVars_frame {V : Type}
    (usingPrivileges : UICapabilities → UICapabilities)
    (vars : InjectedVars V) (req : Request) :
    (replaceInjectedVars false usingPrivileges vars req).1 = vars ∧
    ((replaceInjectedVars true usingPrivileges vars req).1).otherVars
        = vars.otherVars ∧
    ((replaceInjectedVars true usingPrivileges vars req).1).uiCapabilities
        = (if jsStrictEqFalse req.route.settings.auth
            then disableUICapabilitesAll vars.uiCapabilities
            else usingPrivileges vars.uiCapabilities) := by
  refine ⟨rfl, ?_, ?_⟩ <;>
    cases hauth : jsStrictEqFalse req.route.settings.auth <;>
      simp [replaceInjectedVars, hauth]

/-- C6: in RBAC mode, a request on a route whose auth setting is strictly
the boolean `false` takes the capability disabler's "disable all" path —
the result holds `disableUICapabilites.all` of the input capabilities,
every capability flag is `false`, and the empty event trace shows the
privilege-resolving path (the Checker) was never consulted. -/
theorem C6_anonymous_route_disables_all {V : Type}
    (usingPrivileges : UICapabilities → UICapabilities)
    (vars : InjectedVars V) (path : String) (tags : List String) :
    replaceInjectedVars true usingPrivileges vars
        ⟨path, ⟨⟨tags, AuthSetting.bool false⟩⟩⟩
      = ({ vars with
            uiCapabilities := disableUICapabilitesAll vars.uiCapabilities }, []) ∧
    allFlagsFalse
        ((replaceInjectedVars true usingPrivileges vars
          ⟨path, ⟨⟨tags, AuthSetting.bool false⟩⟩⟩).1.uiCapabilities) = true := by
  constructor
  · simp [replaceInjectedVars, jsStrictEqFalse]
  · simp [replaceInjectedVars, jsStrictEqFalse,
      allFlagsFalse_disableUICapabilitesAll]

/-- C7: `xpack.security.authorization.legacyFallback.enabled` defaults to
`true` in the schema, is registered as deprecated by the `deprecations`
hook, and is still read: the mode resolver's tie-break depends on its
value — flipping only that flag flips the RBAC decision. -/
theorem C7_legacy_fallback_default_deprecated_read :
    securityConfigDefaults.authorization.legacyFallback.enabled = true ∧
    "authorization.legacyFallback.enabled" ∈ deprecatedSettings ∧
    useRbacTieBreak true true true ≠ useRbacTieBreak true false true := by
  refine ⟨rfl, ?_, by decide⟩
  simp [deprecatedSettings]

end KibanaSecurity
